import Mathlib

/-!
Verification of the Compara-Imagen-Video backend (scan/cache/compare pipeline).

This file gives a shallow embedding of the relevant parts of the source:

* `backend/comparator.py` — `ImageComparator.hamming_distance`,
  `calculate_similarity_percentage`, `db_row_to_file_info`, `find_duplicates`,
  `calculate_potential_savings`;
* `backend/database.py` — `get_file_by_path`, `insert_or_update_file`,
  `get_files_with_hashes`;
* `backend/scanner.py` — `ScanStatus`, `FileScanner.get_file_type`,
  `FileScanner.process_file`, `FileScanner.scan_directory`;
* `backend/config.py` — the constants used by the above.

Modelling conventions:

* Python floats are modelled as exact rationals (`ℚ`); `round(x, 2)` is
  modelled as decimal rounding to two places with ties to even
  (`py_round2`), which is Python's rounding mode.
* Timestamps are abstract naturals; `datetime` equality is `Nat` equality.
* I/O (directory enumeration, extraction, the wall clock, storage failures)
  is passed in explicitly as data/oracles, so every function is executable.
* Python's stable ascending `list.sort` is modelled by `List.insertionSort`,
  which is stable and sorts ascending for the same key.
* String comparison (`sorted` on paths, SQL `ORDER BY hash` over ASCII hex
  strings) is code-point lexicographic, modelled by `str_le`.
-/

/-- Decimal rounding of `q * 100` to an integer with ties to even, the
rounding mode of Python's built-in `round`. -/
def round_half_even (q : ℚ) : ℤ :=
  let n : ℤ := ⌊q⌋
  let frac : ℚ := q - (n : ℚ)
  if frac < (1 : ℚ) / 2 then n
  else if (1 : ℚ) / 2 < frac then n + 1
  else if n % 2 = 0 then n else n + 1

/-- Model of Python's `round(x, 2)` on exact rational values. -/
def py_round2 (q : ℚ) : ℚ :=
  ((round_half_even (q * 100) : ℤ) : ℚ) / 100

/-- Code-point lexicographic comparison of character lists (the order Python
uses to compare `str` values). -/
def chars_le : List Char → List Char → Bool
  | [], _ => true
  | _ :: _, [] => false
  | c :: cs, d :: ds => if c < d then true else if d < c then false else chars_le cs ds

/-- Code-point lexicographic `≤` on strings, as used by Python's `sorted`. -/
def str_le (a b : String) : Bool :=
  chars_le a.data b.data

/-- Value of a single hexadecimal digit, `none` for any other character. -/
def hex_digit_val : Char → Option Nat
  | c =>
    if '0' ≤ c ∧ c ≤ '9' then some (c.toNat - 48)
    else if 'a' ≤ c ∧ c ≤ 'f' then some (c.toNat - 87)
    else if 'A' ≤ c ∧ c ≤ 'F' then some (c.toNat - 55)
    else none

/-- Model of Python's `int(s, 16)` on plain hex-digit strings: the numeric
value when every character is a hex digit and the string is nonempty,
`none` (a `ValueError`) otherwise. -/
def parse_hex (s : String) : Option Nat :=
  if s.isEmpty then none
  else
    s.data.foldl
      (fun acc c =>
        match acc, hex_digit_val c with
        | some v, some d => some (16 * v + d)
        | _, _ => none)
      (some 0)

/-- Fuel-driven Newton iteration, mirroring the integer square root
computed by `int(numpy.sqrt(_))` on the exact inputs that occur here. -/
def isqrt_iter : Nat → Nat → Nat → Nat
  | 0, _, guess => guess
  | fuel + 1, n, guess =>
    let next := (guess + n / guess) / 2
    if next < guess then isqrt_iter fuel n next else guess

/-- Integer square root (structural recursion so it evaluates in the kernel). -/
def isqrt (n : Nat) : Nat :=
  if n ≤ 1 then n else isqrt_iter n n (n / 2)

/-- Fuel-driven binary popcount. -/
def popcount_fuel : Nat → Nat → Nat
  | 0, _ => 0
  | fuel + 1, n => if n = 0 then 0 else n % 2 + popcount_fuel fuel (n / 2)

/-- Number of set bits of a natural number. -/
def popcount (n : Nat) : Nat :=
  popcount_fuel n n

/-- Model of `imagehash.hex_to_hash`: parse the hex string, require the bit
length `4 * len` to be a perfect square (the library's `assert`), and return
the bit width together with the value.  `none` models a raised exception. -/
def hex_to_hash (s : String) : Option (Nat × Nat) :=
  match parse_hex s with
  | none => none
  | some v =>
    let bits := 4 * s.length
    let hs := isqrt bits
    if hs * hs = bits then some (bits, v) else none

/-- `ImageComparator.hamming_distance` (comparator.py lines 17-29): decode
both hex strings; any exception — a malformed string, or the shape mismatch
`TypeError` raised by `ImageHash.__sub__` — yields the fallback value 999. -/
def hamming_distance (hash1 hash2 : String) : Nat :=
  match hex_to_hash hash1, hex_to_hash hash2 with
  | some (n1, v1), some (n2, v2) =>
    if n1 = n2 then popcount (Nat.xor v1 v2) else 999
  | _, _ => 999

/-- `config.HASH_SIZE` (an 8×8 = 64 bit grid). -/
def HASH_SIZE : Nat := 8

/-- `config.MAX_SIMILARITY_THRESHOLD`. -/
def MAX_SIMILARITY_THRESHOLD : Nat := 15

/-- `config.IMAGE_EXTENSIONS`. -/
def IMAGE_EXTENSIONS : List String :=
  [".jpg", ".jpeg", ".png", ".gif", ".bmp", ".webp", ".tiff", ".tif"]

/-- `config.VIDEO_EXTENSIONS`. -/
def VIDEO_EXTENSIONS : List String :=
  [".mp4", ".avi", ".mov", ".mkv", ".webm", ".flv", ".wmv"]

/-- `ImageComparator.calculate_similarity_percentage` (comparator.py lines
31-39): `round((1 - d / hash_size²) * 100, 2)`. -/
def calculate_similarity_percentage (d : Nat) (hash_size : Nat) : ℚ :=
  py_round2 ((1 - (d : ℚ) / ((hash_size : ℚ) * (hash_size : ℚ))) * 100)

/-- A row of the `files` table as the comparator receives it from
`Database.get_files_with_hashes` / `get_file_by_path`. -/
structure DbRow where
  path : String
  filename : String
  size_bytes : Nat
  width : Option Nat
  height : Option Nat
  created_at : Nat
  modified_at : Nat
  file_type : String
  hash : Option String
  deriving DecidableEq, Repr

/-- `models.FileInfo`. -/
structure FileInfo where
  path : String
  filename : String
  size_mb : ℚ
  width : Option Nat
  height : Option Nat
  created_at : Nat
  modified_at : Nat
  file_type : String
  hash : Option String
  deriving DecidableEq, Repr

/-- `models.DuplicatePair`. -/
structure DuplicatePair where
  file1 : FileInfo
  file2 : FileInfo
  similarity_score : Nat
  similarity_percentage : ℚ
  deriving DecidableEq, Repr

/-- `ImageComparator.db_row_to_file_info` (comparator.py lines 41-54). -/
def db_row_to_file_info (row : DbRow) : FileInfo :=
  { path := row.path
    filename := row.filename
    size_mb := py_round2 ((row.size_bytes : ℚ) / (1024 * 1024))
    width := row.width
    height := row.height
    created_at := row.created_at
    modified_at := row.modified_at
    file_type := row.file_type
    hash := row.hash }

/-- Python truthiness of an optional hash string: `None` and `""` are falsy
(the `if not file1.get('hash') ...` guard in `find_duplicates`). -/
def truthy_hash : Option String → Bool
  | none => false
  | some s => !(s == "")

/-- The `DuplicatePair` built at comparator.py lines 104-109. -/
def make_duplicate_pair (file1 file2 : DbRow) (distance : Nat) : DuplicatePair :=
  { file1 := db_row_to_file_info file1
    file2 := db_row_to_file_info file2
    similarity_score := distance
    similarity_percentage := calculate_similarity_percentage distance 8 }

/-- `tuple(sorted([path1, path2]))` — the deduplication key of a pair. -/
def pair_key (p1 p2 : String) : String × String :=
  if str_le p1 p2 then (p1, p2) else (p2, p1)

/-- State of the pairwise loop of `find_duplicates`: the `compared` set of
path keys (as a list) and the accumulated `pairs`. -/
abbrev CompareState := List (String × String) × List DuplicatePair

/-- Body of the inner loop of `find_duplicates` (comparator.py lines 84-110)
for one pair `(file1, file2)`: skip if the unordered path key was already
compared; otherwise record the key, skip unless both hashes are truthy,
compute the distance and append a pair if it is within the threshold. -/
def compare_step (threshold : Nat) (file1 : DbRow) (st : CompareState) (file2 : DbRow) :
    CompareState :=
  let key := pair_key file1.path file2.path
  if key ∈ st.1 then st
  else
    let compared := key :: st.1
    if truthy_hash file1.hash && truthy_hash file2.hash then
      let distance := hamming_distance (file1.hash.getD "") (file2.hash.getD "")
      if distance ≤ threshold then
        (compared, st.2 ++ [make_duplicate_pair file1 file2 distance])
      else (compared, st.2)
    else (compared, st.2)

/-- The double loop `for i in range(n): for j in range(i+1, n)` of
`find_duplicates`, phrased over suffixes: the head is compared against every
later element, then the loop continues on the tail. -/
def compare_outer (threshold : Nat) : List DbRow → CompareState → CompareState
  | [], st => st
  | f :: rest, st => compare_outer threshold rest (rest.foldl (compare_step threshold f) st)

/-- The unsorted pair list produced by the loop of `find_duplicates`
(comparator.py lines 78-110). -/
def find_duplicates_raw (threshold : Nat) (files : List DbRow) : List DuplicatePair :=
  (compare_outer threshold files ([], [])).2

/-- Sort key of `pairs.sort(key=lambda p: p.similarity_score)`. -/
def pairLE (p q : DuplicatePair) : Prop :=
  p.similarity_score ≤ q.similarity_score

instance : DecidableRel pairLE := fun p q => Nat.decLe p.similarity_score q.similarity_score

instance : IsTotal DuplicatePair pairLE := ⟨fun _ _ => Nat.le_total _ _⟩

instance : IsTrans DuplicatePair pairLE := ⟨fun _ _ _ h h2 => Nat.le_trans h h2⟩

/-- `ImageComparator.find_duplicates` (comparator.py lines 56-116) given the
list returned by the database: the pairwise loop followed by Python's stable
ascending sort on `similarity_score` (modelled by the stable
`List.insertionSort`). -/
def find_duplicates (threshold : Nat) (files : List DbRow) : List DuplicatePair :=
  List.insertionSort pairLE (find_duplicates_raw threshold files)

/-- `ImageComparator.calculate_potential_savings` (comparator.py lines
118-129): accumulate the larger `size_mb` of each pair and round the total. -/
def calculate_potential_savings (pairs : List DuplicatePair) : ℚ :=
  py_round2 (pairs.foldl (fun total p => total + max p.file1.size_mb p.file2.size_mb) 0)

/-- Sort key of `ORDER BY hash` in `get_files_with_hashes` (bytewise on
ASCII hex strings, i.e. code-point lexicographic). -/
def row_hash_le (a b : DbRow) : Prop :=
  str_le (a.hash.getD "") (b.hash.getD "") = true

instance : DecidableRel row_hash_le := fun _ _ => instDecidableEqBool _ _

/-- `Database.get_files_with_hashes` (database.py lines 107-123): keep the
rows whose `hash` column is not NULL (the empty string is kept!), optionally
restrict to one `file_type`, and order by hash. -/
def get_files_with_hashes (file_type : String) (rows : List DbRow) : List DbRow :=
  let filtered :=
    if file_type = "both" then rows.filter (fun r => r.hash.isSome)
    else rows.filter (fun r => r.hash.isSome && r.file_type == file_type)
  List.insertionSort row_hash_le filtered

/-- A file as observed on disk by `FileScanner.process_file` via `stat` and
`pathlib` (path already resolved; timestamps abstract). -/
structure FsFile where
  path : String
  name : String
  suffix : String
  size_bytes : Nat
  ctime : Nat
  mtime : Nat
  deriving DecidableEq, Repr

/-- Model of Python's `str.lower()` (ASCII case folding of the extension
strings that occur here), written over the character list so that it
evaluates in the kernel. -/
def str_lower (s : String) : String :=
  String.mk (s.data.map Char.toLower)

/-- `FileScanner.get_file_type` (scanner.py lines 107-115). -/
def get_file_type (f : FsFile) : Option String :=
  let ext := str_lower f.suffix
  if ext ∈ IMAGE_EXTENSIONS then some "image"
  else if ext ∈ VIDEO_EXTENSIONS then some "video"
  else none

/-- A stored row of the `files` table (database.py lines 25-40), including
the `scan_date` column that `insert_or_update_file` maintains. -/
structure CacheRecord where
  path : String
  filename : String
  size_bytes : Nat
  width : Option Nat
  height : Option Nat
  created_at : Nat
  modified_at : Nat
  file_type : String
  hash : Option String
  scan_date : Nat
  deriving DecidableEq, Repr

/-- The `file_data` dictionary assembled by `process_file` (scanner.py lines
188-196, optionally extended by extraction at line 213). -/
structure FileData where
  path : String
  filename : String
  size_bytes : Nat
  created_at : Nat
  modified_at : Nat
  file_type : String
  width : Option Nat
  height : Option Nat
  hash : Option String
  deriving DecidableEq, Repr

/-- Result of a successful `extract_image_info` / `extract_video_info`. -/
structure ExtractInfo where
  width : Nat
  height : Nat
  hash : String
  deriving DecidableEq, Repr

/-- `Database.get_file_by_path` (database.py lines 59-68) over the table
modelled as a list of rows (`path` is a UNIQUE column). -/
def get_file_by_path (cache : List CacheRecord) (p : String) : Option CacheRecord :=
  cache.find? (fun r => r.path == p)

/-- `Database.insert_or_update_file` (database.py lines 70-98): insert a new
row, or on path conflict update `size_bytes`, `width`, `height`,
`modified_at`, `hash` and set `scan_date` to the current timestamp
(`filename`, `created_at` and `file_type` are not updated). -/
def insert_or_update_file (cache : List CacheRecord) (now : Nat) (fd : FileData) :
    List CacheRecord :=
  if cache.any (fun r => r.path == fd.path) then
    cache.map (fun r =>
      if r.path == fd.path then
        { r with
          size_bytes := fd.size_bytes
          width := fd.width
          height := fd.height
          modified_at := fd.modified_at
          hash := fd.hash
          scan_date := now }
      else r)
  else
    cache ++
      [{ path := fd.path
         filename := fd.filename
         size_bytes := fd.size_bytes
         width := fd.width
         height := fd.height
         created_at := fd.created_at
         modified_at := fd.modified_at
         file_type := fd.file_type
         hash := fd.hash
         scan_date := now }]

/-- The `file_data.update(info)` step of `process_file` (scanner.py lines
204-216): merge the extraction result when extraction succeeded, keep the
basic metadata (no dimensions, no hash) when it failed. -/
def extracted_file_data (base : FileData) : Option ExtractInfo → FileData
  | some info =>
    { base with width := some info.width, height := some info.height, hash := some info.hash }
  | none => base

/-- `FileScanner.process_file` (scanner.py lines 178-226) on its non-raising
path, with extraction as an oracle (it is I/O over pixel data).  Returns the
value `process_file` returns (`inl` = the cached row reused verbatim,
`inr` = the freshly built `file_data`) together with the table after the
call.  The cache-freshness rule is the equality test of line 200. -/
def process_file (cache : List CacheRecord) (now : Nat)
    (extract : FsFile → Option ExtractInfo) (f : FsFile) :
    Option (CacheRecord ⊕ FileData) × List CacheRecord :=
  match get_file_type f with
  | none => (none, cache)
  | some ft =>
    let base : FileData :=
      { path := f.path
        filename := f.name
        size_bytes := f.size_bytes
        created_at := f.ctime
        modified_at := f.mtime
        file_type := ft
        width := none
        height := none
        hash := none }
    let hit : Option CacheRecord :=
      match get_file_by_path cache f.path with
      | some cached => if cached.modified_at = f.mtime then some cached else none
      | none => none
    match hit with
    | some cached => (some (Sum.inl cached), cache)
    | none =>
      let fd := extracted_file_data base (extract f)
      (some (Sum.inr fd), insert_or_update_file cache now fd)

/-- `scanner.ScanStatus` (scanner.py lines 26-63). -/
structure ScanStatus where
  is_scanning : Bool
  scanned_path : Option String
  file_type : String
  total_files : Nat
  processed_files : Nat
  current_file : Option String
  errors : List String
  start_time : Option Nat
  end_time : Option Nat
  deriving DecidableEq, Repr

/-- `ScanStatus.reset` (scanner.py lines 39-49): the idle baseline state. -/
def ScanStatus.reset : ScanStatus :=
  { is_scanning := false
    scanned_path := none
    file_type := "both"
    total_files := 0
    processed_files := 0
    current_file := none
    errors := []
    start_time := none
    end_time := none }

/-- Outcome of a `scan_directory` call: normal return, the `RuntimeError`
of the entry guard, or an exception that escaped the `try` and was re-raised
by the `except` block. -/
inductive ScanOutcome where
  | ok
  | conflict
  | failed (msg : String)
  deriving DecidableEq, Repr

/-- The I/O environment of one `scan_directory` run: the two wall-clock
readings, whether `db.clear_all()` raises (the only operation inside the
`try` block that can raise — `find_files` and `process_file` catch their own
exceptions), the enumerated files, and the per-file caught-error oracle (the
message `process_file` appends to `scan_status.errors` when its own `except`
branch fires, `none` when the file is processed without error). -/
structure ScanWorld where
  start_now : Nat
  end_now : Nat
  clear_all_error : Option String
  files : List FsFile
  file_error : FsFile → Option String

/-- The per-file loop of `scan_directory` (scanner.py lines 263-266):
record the current filename, run `process_file` (which appends its own
error message on failure, scanner.py line 225), then advance the counter. -/
def scan_process_loop (w : ScanWorld) (st : ScanStatus) : ScanStatus :=
  w.files.foldl
    (fun s f =>
      let s1 := { s with current_file := some f.name }
      let s2 :=
        match w.file_error f with
        | some msg => { s1 with errors := s1.errors ++ [f.name ++ ": " ++ msg] }
        | none => s1
      { s2 with processed_files := s2.processed_files + 1 })
    st

/-- `FileScanner.scan_directory` (scanner.py lines 228-281): the entry guard
raising `RuntimeError` while a scan is in flight, the reset/flag/start-time
prologue, the optional cache clearing, the per-file loop, and the epilogue —
on both the normal path and the `except` path the end timestamp is set and
the scanning flag cleared; the `except` path records the error and
re-raises. -/
def scan_directory (st : ScanStatus) (w : ScanWorld) (directory : String)
    (file_type : String) (clear_cache : Bool) :
    ScanOutcome × ScanStatus :=
  if st.is_scanning then (ScanOutcome.conflict, st)
  else
    let st1 :=
      { ScanStatus.reset with
        is_scanning := true
        scanned_path := some directory
        file_type := file_type
        start_time := some w.start_now }
    match (if clear_cache then w.clear_all_error else none) with
    | some msg =>
      (ScanOutcome.failed msg,
       { st1 with
         errors := st1.errors ++ [msg]
         end_time := some w.end_now
         is_scanning := false })
    | none =>
      let st2 := { st1 with total_files := w.files.length }
      let st3 := scan_process_loop w st2
      (ScanOutcome.ok,
       { st3 with end_time := some w.end_now, is_scanning := false })

/-- The unordered path key of a reported pair. -/
def dup_pair_key (pr : DuplicatePair) : String × String :=
  pair_key pr.file1.path pr.file2.path

/-- Provenance of a pair appended by the loop for the ordered row pair
`(f, g)`: both hashes truthy, distance within the threshold, and the pair is
exactly the one built at comparator.py lines 104-109. -/
def good_pair (threshold : Nat) (f g : DbRow) (pr : DuplicatePair) : Prop :=
  truthy_hash f.hash = true ∧ truthy_hash g.hash = true ∧
  hamming_distance (f.hash.getD "") (g.hash.getD "") ≤ threshold ∧
  pr = make_duplicate_pair f g (hamming_distance (f.hash.getD "") (g.hash.getD ""))

/-- Invariant of the pairwise loop: every accumulated pair has its key in
the `compared` set, and accumulated pairs have pairwise distinct keys. -/
def compare_inv (st : CompareState) : Prop :=
  (∀ pr ∈ st.2, dup_pair_key pr ∈ st.1) ∧
  st.2.Pairwise (fun a b => dup_pair_key a ≠ dup_pair_key b)

/-- Concrete table row: a 1 MiB image with the all-zero 64-bit fingerprint. -/
def rowA : DbRow :=
  { path := "/pics/a.jpg"
    filename := "a.jpg"
    size_bytes := 1048576
    width := some 100
    height := some 100
    created_at := 10
    modified_at := 20
    file_type := "image"
    hash := some "0000000000000000" }

/-- Concrete table row: fingerprint at Hamming distance 1 from `rowA`. -/
def rowB : DbRow :=
  { path := "/pics/b.jpg"
    filename := "b.jpg"
    size_bytes := 2097152
    width := some 100
    height := some 100
    created_at := 11
    modified_at := 21
    file_type := "image"
    hash := some "0000000000000001" }

/-- Concrete table row whose stored fingerprint is the empty string. -/
def rowE : DbRow :=
  { path := "/pics/e.jpg"
    filename := "e.jpg"
    size_bytes := 4096
    width := none
    height := none
    created_at := 12
    modified_at := 22
    file_type := "image"
    hash := some "" }

/-- Concrete on-disk file matching `cachedA` below. -/
def fileJ : FsFile :=
  { path := "/pics/a.jpg"
    name := "a.jpg"
    suffix := ".jpg"
    size_bytes := 1048576
    ctime := 10
    mtime := 20 }

/-- Concrete cached record for `fileJ` with the same modification time. -/
def cachedA : CacheRecord :=
  { path := "/pics/a.jpg"
    filename := "a.jpg"
    size_bytes := 1048576
    width := some 100
    height := some 100
    created_at := 10
    modified_at := 20
    file_type := "image"
    hash := some "0000000000000000"
    scan_date := 30 }

/-- Extraction oracle that always fails. -/
def no_extract : FsFile → Option ExtractInfo := fun _ => none

/-- Concrete scan environment in which `db.clear_all()` raises. -/
def worldFail : ScanWorld :=
  { start_now := 1
    end_now := 2
    clear_all_error := some "database is locked"
    files := []
    file_error := fun _ => none }

/-- Concrete `ScanStatus` of a scan in flight. -/
def runningScan : ScanStatus :=
  { ScanStatus.reset with
    is_scanning := true
    scanned_path := some "/pics"
    start_time := some 1 }

theorem dup_pair_key_make (f g : DbRow) (d : Nat) :
    dup_pair_key (make_duplicate_pair f g d) = pair_key f.path g.path := rfl

theorem compare_step_inv (t : Nat) (f g : DbRow) (st : CompareState)
    (h : compare_inv st) : compare_inv (compare_step t f st g) := by
  obtain ⟨h1, h2⟩ := h
  unfold compare_step
  by_cases hk : pair_key f.path g.path ∈ st.1
  · simpa [hk] using ⟨h1, h2⟩
  · have hgrow : ∀ pr ∈ st.2, dup_pair_key pr ∈ pair_key f.path g.path :: st.1 :=
      fun pr hpr => List.mem_cons_of_mem _ (h1 pr hpr)
    have happend :
        compare_inv (pair_key f.path g.path :: st.1,
          st.2 ++ [make_duplicate_pair f g
            (hamming_distance (f.hash.getD "") (g.hash.getD ""))]) := by
      constructor
      · intro pr hpr
        rcases List.mem_append.mp hpr with hold | hnew
        · exact hgrow pr hold
        · rcases List.mem_singleton.mp hnew with rfl
          exact List.mem_cons_self _ _
      · refine List.pairwise_append.mpr ⟨h2, List.pairwise_singleton _ _, ?_⟩
        intro a ha b hb
        rcases List.mem_singleton.mp hb with rfl
        rw [dup_pair_key_make]
        intro heq
        exact hk (heq ▸ h1 a ha)
    by_cases hh : (truthy_hash f.hash && truthy_hash g.hash) = true
    · by_cases hd :
        hamming_distance (f.hash.getD "") (g.hash.getD "") ≤ t
      · simpa [hk, hh, hd] using happend
      · simpa [hk, hh, hd] using ⟨hgrow, h2⟩
    · simpa [hk, hh] using ⟨hgrow, h2⟩

theorem compare_foldl_inv (t : Nat) (f : DbRow) (rest : List DbRow) (st : CompareState)
    (h : compare_inv st) : compare_inv (rest.foldl (compare_step t f) st) := by
  induction rest generalizing st with
  | nil => exact h
  | cons g gs ih => exact ih _ (compare_step_inv t f g st h)

theorem compare_outer_inv (t : Nat) (l : List DbRow) (st : CompareState)
    (h : compare_inv st) : compare_inv (compare_outer t l st) := by
  induction l generalizing st with
  | nil => exact h
  | cons f rest ih => exact ih _ (compare_foldl_inv t f rest st h)

theorem find_duplicates_raw_pairwise_key (t : Nat) (files : List DbRow) :
    (find_duplicates_raw t files).Pairwise (fun a b => dup_pair_key a ≠ dup_pair_key b) :=
  (compare_outer_inv t files ([], []) ⟨by simp, List.Pairwise.nil⟩).2

theorem compare_step_spec (t : Nat) (f g : DbRow) (st : CompareState) :
    ∀ pr ∈ (compare_step t f st g).2, pr ∈ st.2 ∨ good_pair t f g pr := by
  intro pr hpr
  unfold compare_step at hpr
  by_cases hk : pair_key f.path g.path ∈ st.1
  · simp only [hk, if_true] at hpr
    exact Or.inl hpr
  · by_cases hh : (truthy_hash f.hash && truthy_hash g.hash) = true
    · by_cases hd : hamming_distance (f.hash.getD "") (g.hash.getD "") ≤ t
      · simp only [hk, if_false, hh, hd, if_true] at hpr
        rcases List.mem_append.mp hpr with hold | hnew
        · exact Or.inl hold
        · rcases List.mem_singleton.mp hnew with rfl
          obtain ⟨hf, hg⟩ := Bool.and_eq_true_iff.mp hh
          exact Or.inr ⟨hf, hg, hd, rfl⟩
      · simp only [hk, if_false, hh, hd] at hpr
        exact Or.inl hpr
    · simp only [hk, if_false, hh] at hpr
      exact Or.inl hpr

theorem compare_foldl_spec (t : Nat) (f : DbRow) (rest : List DbRow) (st : CompareState) :
    ∀ pr ∈ (rest.foldl (compare_step t f) st).2,
      pr ∈ st.2 ∨ ∃ g ∈ rest, good_pair t f g pr := by
  induction rest generalizing st with
  | nil => intro pr hpr; exact Or.inl hpr
  | cons g gs ih =>
    intro pr hpr
    rcases ih (compare_step t f st g) pr hpr with hin | ⟨g2, hg2, hgood⟩
    · rcases compare_step_spec t f g st pr hin with hin2 | hgood
      · exact Or.inl hin2
      · exact Or.inr ⟨g, List.mem_cons_self _ _, hgood⟩
    · exact Or.inr ⟨g2, List.mem_cons_of_mem _ hg2, hgood⟩

theorem compare_outer_spec (t : Nat) (l : List DbRow) (st : CompareState) :
    ∀ pr ∈ (compare_outer t l st).2,
      pr ∈ st.2 ∨ ∃ f rest, (f :: rest) <:+ l ∧ ∃ g ∈ rest, good_pair t f g pr := by
  induction l generalizing st with
  | nil => intro pr hpr; exact Or.inl hpr
  | cons f fs ih =>
    intro pr hpr
    rcases ih (fs.foldl (compare_step t f) st) pr hpr with hin | ⟨f2, rest2, hsuf, hrest⟩
    · rcases compare_foldl_spec t f fs st pr hin with hin2 | ⟨g, hg, hgood⟩
      · exact Or.inl hin2
      · exact Or.inr ⟨f, fs, List.suffix_refl _, g, hg, hgood⟩
    · exact Or.inr ⟨f2, rest2, hsuf.trans (List.suffix_cons f fs), hrest⟩

theorem find_duplicates_raw_spec (t : Nat) (files : List DbRow) (pr : DuplicatePair)
    (h : pr ∈ find_duplicates_raw t files) :
    ∃ f rest, (f :: rest) <:+ files ∧ ∃ g ∈ rest, good_pair t f g pr := by
  rcases compare_outer_spec t files ([], []) pr h with hin | hprov
  · cases hin
  · exact hprov

theorem mem_find_duplicates (t : Nat) (files : List DbRow) (pr : DuplicatePair) :
    pr ∈ find_duplicates t files ↔ pr ∈ find_duplicates_raw t files :=
  (List.perm_insertionSort pairLE _).mem_iff

theorem truthy_hash_ne_empty {o : Option String} (h : truthy_hash o = true) :
    o ≠ some "" := by
  cases o with
  | none => simp [truthy_hash] at h
  | some s =>
    simp only [truthy_hash, Bool.not_eq_true'] at h
    intro he
    injection he with he2
    rw [he2] at h
    simp at h

/-- C1: every pair reported by `find_duplicates` carries
`similarity_percentage = round((1 - distance / (HASH_SIZE · HASH_SIZE)) * 100, 2)`
with the default 8×8 grid (64 bits); in particular a pair at Hamming
distance 1 is reported as 98.44. -/
theorem C1_similarity_percentage_formula (threshold : Nat) (files : List DbRow)
    (pr : DuplicatePair) (h : pr ∈ find_duplicates threshold files) :
    pr.similarity_percentage =
      py_round2 ((1 - (pr.similarity_score : ℚ) /
        ((HASH_SIZE : ℚ) * (HASH_SIZE : ℚ))) * 100) ∧
    (pr.similarity_score = 1 → pr.similarity_percentage = 9844 / 100) := by
  obtain ⟨f, rest, hsuf, g, hg, hf, hgt, hd, hpr⟩ :=
    find_duplicates_raw_spec threshold files pr
      ((mem_find_duplicates threshold files pr).mp h)
  subst hpr
  constructor
  · rfl
  · intro h1
    have hd1 : hamming_distance (f.hash.getD "") (g.hash.getD "") = 1 := h1
    rw [hd1]
    show calculate_similarity_percentage 1 8 = 9844 / 100
    with_unfolding_all rfl

/-- C2: when either hex fingerprint string fails to decode, the bit-distance
computation returns the fallback 999, which exceeds every valid threshold
(0–15), so such a comparison never qualifies and no reported pair carries
the corrupt fingerprints; the computation is total rather than raising. -/
theorem C2_malformed_hash_fallback (s1 s2 : String)
    (hbad : hex_to_hash s1 = none ∨ hex_to_hash s2 = none) :
    hamming_distance s1 s2 = 999 ∧
    (∀ t, t ≤ MAX_SIMILARITY_THRESHOLD → ¬ (hamming_distance s1 s2 ≤ t)) ∧
    (∀ t files pr, t ≤ MAX_SIMILARITY_THRESHOLD → pr ∈ find_duplicates t files →
      ¬ (pr.file1.hash = some s1 ∧ pr.file2.hash = some s2)) := by
  have h999 : hamming_distance s1 s2 = 999 := by
    rcases hbad with hb | hb
    · cases hx : hex_to_hash s2 <;> simp [hamming_distance, hb, hx]
    · cases hx : hex_to_hash s1 <;> simp [hamming_distance, hb, hx]
  refine ⟨h999, ?_, ?_⟩
  · intro t ht hle
    rw [h999] at hle
    simp only [MAX_SIMILARITY_THRESHOLD] at ht
    omega
  · intro t files pr ht hmem hcon
    obtain ⟨f, rest, hsuf, g, hg, hf, hgt, hd, hpr⟩ :=
      find_duplicates_raw_spec t files pr ((mem_find_duplicates t files pr).mp hmem)
    subst hpr
    have hf1 : f.hash = some s1 := hcon.1
    have hg1 : g.hash = some s2 := hcon.2
    rw [hf1, hg1] at hd
    simp only [Option.getD_some] at hd
    rw [h999] at hd
    simp only [MAX_SIMILARITY_THRESHOLD] at ht
    omega

/-- C6: in every `find_duplicates` result the pairs have pairwise distinct
unordered path keys (each unordered pair of paths is reported at most once),
and — the stored paths being unique — no pair relates a record to itself. -/
theorem C6_unordered_pair_dedup (threshold : Nat) (files : List DbRow)
    (hnd : files.Pairwise (fun a b => a.path ≠ b.path)) :
    (find_duplicates threshold files).Pairwise
      (fun a b => dup_pair_key a ≠ dup_pair_key b) ∧
    ∀ pr ∈ find_duplicates threshold files, pr.file1.path ≠ pr.file2.path := by
  constructor
  · have hsym : ∀ {x y : DuplicatePair},
        dup_pair_key x ≠ dup_pair_key y → dup_pair_key y ≠ dup_pair_key x :=
      fun hxy h => hxy h.symm
    exact ((List.perm_insertionSort pairLE _).pairwise_iff hsym).mpr
      (find_duplicates_raw_pairwise_key threshold files)
  · intro pr hpr
    obtain ⟨f, rest, hsuf, g, hg, hf, hgt, hd, hpr2⟩ :=
      find_duplicates_raw_spec threshold files pr
        ((mem_find_duplicates threshold files pr).mp hpr)
    subst hpr2
    have hpw : (f :: rest).Pairwise (fun a b => a.path ≠ b.path) :=
      List.Pairwise.sublist hsuf.sublist hnd
    exact (List.pairwise_cons.mp hpw).1 g hg

/-- C7: the result of `find_duplicates` is sorted ascending by
`similarity_score`, and within each equal-score class the pairs appear in
exactly the order the pairwise loop produced them (stable sort). -/
theorem C7_sorted_and_stable (threshold : Nat) (files : List DbRow) :
    List.Sorted pairLE (find_duplicates threshold files) ∧
    ∀ s : Nat,
      (find_duplicates threshold files).filter (fun p => p.similarity_score == s)
        = (find_duplicates_raw threshold files).filter
            (fun p => p.similarity_score == s) := by
  constructor
  · exact List.sorted_insertionSort pairLE _
  · intro s
    show (List.insertionSort pairLE (find_duplicates_raw threshold files)).filter
          (fun p => p.similarity_score == s)
        = (find_duplicates_raw threshold files).filter (fun p => p.similarity_score == s)
    have hmemP : ∀ a ∈ (find_duplicates_raw threshold files).filter
        (fun p => p.similarity_score == s), a.similarity_score = s := by
      intro a ha
      exact beq_iff_eq.mp ((List.mem_filter.mp ha).2)
    have hpw : ((find_duplicates_raw threshold files).filter
        (fun p => p.similarity_score == s)).Pairwise pairLE := by
      apply List.pairwise_iff_forall_sublist.mpr
      intro a b hab
      have ha := hmemP a (hab.subset (by simp))
      have hb := hmemP b (hab.subset (by simp))
      unfold pairLE
      rw [ha, hb]
    have hsub := List.sublist_insertionSort hpw
      (List.filter_sublist (find_duplicates_raw threshold files))
    have hidem : ((find_duplicates_raw threshold files).filter
          (fun p => p.similarity_score == s)).filter (fun p => p.similarity_score == s)
        = (find_duplicates_raw threshold files).filter (fun p => p.similarity_score == s) :=
      List.filter_eq_self.mpr (fun a ha => (List.mem_filter.mp ha).2)
    have hsubF := List.Sublist.filter (fun p => p.similarity_score == s) hsub
    rw [hidem] at hsubF
    have hperm := (List.perm_insertionSort pairLE
      (find_duplicates_raw threshold files)).filter (fun p => p.similarity_score == s)
    exact (hsubF.eq_of_length hperm.length_eq.symm).symm

theorem savings_foldl (pairs : List DuplicatePair) (a : ℚ) :
    pairs.foldl (fun total p => total + max p.file1.size_mb p.file2.size_mb) a
      = a + (pairs.map (fun p => max p.file1.size_mb p.file2.size_mb)).sum := by
  induction pairs generalizing a with
  | nil => simp
  | cons p ps ih =>
    simp only [List.foldl_cons, List.map_cons, List.sum_cons, ih]
    ring

/-- C8: the potential savings are the rounded sum, over the given pairs, of
each pair's larger `size_mb`; a file shared by several pairs contributes its
size once per pair, and an empty pair list yields zero. -/
theorem C8_potential_savings (pairs : List DuplicatePair) :
    calculate_potential_savings pairs
      = py_round2 ((pairs.map (fun p => max p.file1.size_mb p.file2.size_mb)).sum) ∧
    calculate_potential_savings [] = 0 ∧
    ∀ p1 p2 : DuplicatePair,
      calculate_potential_savings [p1, p2]
        = py_round2 (max p1.file1.size_mb p1.file2.size_mb
            + max p2.file1.size_mb p2.file2.size_mb) := by
  refine ⟨?_, ?_, ?_⟩
  · unfold calculate_potential_savings
    rw [savings_foldl, zero_add]
  · show py_round2 0 = 0
    with_unfolding_all rfl
  · intro p1 p2
    show py_round2 ((0 + max p1.file1.size_mb p1.file2.size_mb)
        + max p2.file1.size_mb p2.file2.size_mb) = _
    rw [zero_add]

/-- C10: a record whose stored fingerprint is the empty string still passes
the `hash IS NOT NULL` filter of `get_files_with_hashes`, yet Python
truthiness makes `find_duplicates` skip it in every comparison, so no
reported pair ever carries an empty-string fingerprint. -/
theorem C10_empty_string_hash (rows files : List DbRow) (threshold : Nat) (r : DbRow)
    (ft : String) (hr : r ∈ rows) (hh : r.hash = some "")
    (hft : ft = "both" ∨ r.file_type = ft) :
    r ∈ get_files_with_hashes ft rows ∧
    ∀ pr ∈ find_duplicates threshold files,
      pr.file1.hash ≠ some "" ∧ pr.file2.hash ≠ some "" := by
  constructor
  · show r ∈ List.insertionSort row_hash_le
      (if ft = "both" then rows.filter (fun r2 => r2.hash.isSome)
       else rows.filter (fun r2 => r2.hash.isSome && r2.file_type == ft))
    apply (List.perm_insertionSort row_hash_le _).mem_iff.mpr
    by_cases hb : ft = "both"
    · rw [if_pos hb]
      exact List.mem_filter.mpr ⟨hr, by rw [hh]; rfl⟩
    · rw [if_neg hb]
      have hftr : r.file_type = ft := hft.resolve_left hb
      refine List.mem_filter.mpr ⟨hr, ?_⟩
      rw [hh, hftr]
      simp
  · intro pr hpr
    obtain ⟨f, rest, hsuf, g, hg, hf, hgt, hd, hpr2⟩ :=
      find_duplicates_raw_spec threshold files pr
        ((mem_find_duplicates threshold files pr).mp hpr)
    subst hpr2
    exact ⟨truthy_hash_ne_empty hf, truthy_hash_ne_empty hgt⟩

/-- C3: for a candidate file (recognised extension), a cached record whose
stored modification timestamp equals the on-disk one is returned verbatim
with extraction skipped (the result does not depend on the extractor);
otherwise metadata is (re)built, the fingerprint is attached exactly when
extraction succeeds, and the result — fingerprint-absent or not — is
upserted into the cache. -/
theorem C3_cache_freshness_rule (cache : List CacheRecord) (now : Nat)
    (extract : FsFile → Option ExtractInfo) (f : FsFile)
    (hft : (get_file_type f).isSome) :
    (∀ c, get_file_by_path cache f.path = some c → c.modified_at = f.mtime →
      process_file cache now extract f = (some (Sum.inl c), cache) ∧
      ∀ extract2 : FsFile → Option ExtractInfo,
        process_file cache now extract2 f = process_file cache now extract f) ∧
    ((∀ c, get_file_by_path cache f.path = some c → c.modified_at ≠ f.mtime) →
      ∃ fd : FileData,
        process_file cache now extract f
          = (some (Sum.inr fd), insert_or_update_file cache now fd) ∧
        fd.path = f.path ∧ fd.modified_at = f.mtime ∧ fd.size_bytes = f.size_bytes ∧
        fd.hash = (extract f).map ExtractInfo.hash ∧
        (extract f = none → fd.hash = none)) := by
  obtain ⟨ft, hftv⟩ := Option.isSome_iff_exists.mp hft
  constructor
  · intro c hc hm
    have hres : ∀ e2 : FsFile → Option ExtractInfo,
        process_file cache now e2 f = (some (Sum.inl c), cache) := by
      intro e2
      simp only [process_file, hftv, hc]
      rw [if_pos hm]
    exact ⟨hres extract, fun e2 => (hres e2).trans (hres extract).symm⟩
  · intro hmiss
    refine ⟨extracted_file_data
      { path := f.path, filename := f.name, size_bytes := f.size_bytes,
        created_at := f.ctime, modified_at := f.mtime, file_type := ft,
        width := none, height := none, hash := none } (extract f), ?_, ?_, ?_, ?_, ?_, ?_⟩
    · cases hcp : get_file_by_path cache f.path with
      | none => simp only [process_file, hftv, hcp]
      | some c =>
        have hne := hmiss c hcp
        simp only [process_file, hftv, hcp]
        rw [if_neg hne]
    · cases hx : extract f <;> simp [extracted_file_data]
    · cases hx : extract f <;> simp [extracted_file_data]
    · cases hx : extract f <;> simp [extracted_file_data]
    · cases hx : extract f <;> simp [extracted_file_data]
    · intro h0
      rw [h0]
      simp [extracted_file_data]

/-- C9: on a cache hit (stored modification timestamp equal to the on-disk
one) `process_file` issues no write: the table after the call is exactly the
table before it, so every stored field of every record — `scan_date`
included — is unchanged; only a miss or a timestamp mismatch writes. -/
theorem C9_cache_hit_no_write (cache : List CacheRecord) (now : Nat)
    (extract : FsFile → Option ExtractInfo) (f : FsFile) (c : CacheRecord)
    (hft : (get_file_type f).isSome)
    (hc : get_file_by_path cache f.path = some c)
    (hm : c.modified_at = f.mtime) :
    (process_file cache now extract f).2 = cache := by
  obtain ⟨ft, hftv⟩ := Option.isSome_iff_exists.mp hft
  simp only [process_file, hftv, hc]
  rw [if_pos hm]

/-- C4: an accepted scan run (entry guard passed) always terminates with the
scanning flag cleared and the end timestamp set — on the normal path and on
the path where an exception escapes the `try` block alike — and an escaping
exception is recorded in the error list before being re-raised. -/
theorem C4_scan_terminal_state (st : ScanStatus) (w : ScanWorld)
    (directory file_type : String) (clear_cache : Bool)
    (hst : st.is_scanning = false) :
    (scan_directory st w directory file_type clear_cache).2.is_scanning = false ∧
    (scan_directory st w directory file_type clear_cache).2.end_time = some w.end_now ∧
    (∀ msg, (scan_directory st w directory file_type clear_cache).1
        = ScanOutcome.failed msg →
      msg ∈ (scan_directory st w directory file_type clear_cache).2.errors) := by
  have hcond : ¬ (st.is_scanning = true) := by rw [hst]; simp
  simp only [scan_directory]
  rw [if_neg hcond]
  cases hcl : (if clear_cache then w.clear_all_error else none) with
  | some msg =>
    refine ⟨rfl, rfl, ?_⟩
    intro m hm2
    injection hm2 with he
    subst he
    simp
  | none =>
    refine ⟨rfl, rfl, ?_⟩
    intro m hm2
    cases hm2

/-- C5: a scan requested while the scanning flag is true is rejected as a
conflict (the guard raises before any mutation), leaving every field of the
running scan's state exactly as it was. -/
theorem C5_scan_conflict_unchanged (st : ScanStatus) (w : ScanWorld)
    (directory file_type : String) (clear_cache : Bool)
    (hst : st.is_scanning = true) :
    scan_directory st w directory file_type clear_cache = (ScanOutcome.conflict, st) := by
  unfold scan_directory
  rw [if_pos hst]

theorem C1_witness :
    make_duplicate_pair rowA rowB 1 ∈ find_duplicates 5 [rowA, rowB] ∧
    ((make_duplicate_pair rowA rowB 1).similarity_percentage =
      py_round2 ((1 - ((make_duplicate_pair rowA rowB 1).similarity_score : ℚ) /
        ((HASH_SIZE : ℚ) * (HASH_SIZE : ℚ))) * 100) ∧
    ((make_duplicate_pair rowA rowB 1).similarity_score = 1 →
      (make_duplicate_pair rowA rowB 1).similarity_percentage = 9844 / 100)) := by
  have hm : make_duplicate_pair rowA rowB 1 ∈ find_duplicates 5 [rowA, rowB] := by
    have he : find_duplicates 5 [rowA, rowB] = [make_duplicate_pair rowA rowB 1] := by
      with_unfolding_all rfl
    rw [he]
    exact List.mem_singleton.mpr rfl
  exact ⟨hm,
    C1_similarity_percentage_formula 5 [rowA, rowB] (make_duplicate_pair rowA rowB 1) hm⟩

theorem C2_witness :
    (hex_to_hash "zz" = none ∨ hex_to_hash "0000000000000000" = none) ∧
    (hamming_distance "zz" "0000000000000000" = 999 ∧
     (∀ t, t ≤ MAX_SIMILARITY_THRESHOLD →
       ¬ (hamming_distance "zz" "0000000000000000" ≤ t)) ∧
     (∀ t files pr, t ≤ MAX_SIMILARITY_THRESHOLD → pr ∈ find_duplicates t files →
       ¬ (pr.file1.hash = some "zz" ∧ pr.file2.hash = some "0000000000000000"))) :=
  ⟨Or.inl (by decide), C2_malformed_hash_fallback "zz" "0000000000000000" (Or.inl (by decide))⟩

theorem C6_witness :
    ([rowA, rowB] : List DbRow).Pairwise (fun a b => a.path ≠ b.path) ∧
    ((find_duplicates 5 [rowA, rowB]).Pairwise
      (fun a b => dup_pair_key a ≠ dup_pair_key b) ∧
     ∀ pr ∈ find_duplicates 5 [rowA, rowB], pr.file1.path ≠ pr.file2.path) :=
  ⟨by decide, C6_unordered_pair_dedup 5 [rowA, rowB] (by decide)⟩

theorem C10_witness :
    (rowE ∈ [rowE, rowA] ∧ rowE.hash = some "" ∧
      (("both" : String) = "both" ∨ rowE.file_type = "both")) ∧
    (rowE ∈ get_files_with_hashes "both" [rowE, rowA] ∧
     ∀ pr ∈ find_duplicates 5 [rowE, rowA],
       pr.file1.hash ≠ some "" ∧ pr.file2.hash ≠ some "") :=
  ⟨⟨by decide, by decide, Or.inl rfl⟩,
   C10_empty_string_hash [rowE, rowA] [rowE, rowA] 5 rowE "both"
     (by decide) (by decide) (Or.inl rfl)⟩

theorem C3_witness :
    (get_file_type fileJ).isSome ∧
    ((∀ c, get_file_by_path [cachedA] fileJ.path = some c → c.modified_at = fileJ.mtime →
      process_file [cachedA] 99 no_extract fileJ = (some (Sum.inl c), [cachedA]) ∧
      ∀ extract2 : FsFile → Option ExtractInfo,
        process_file [cachedA] 99 extract2 fileJ
          = process_file [cachedA] 99 no_extract fileJ) ∧
    ((∀ c, get_file_by_path [cachedA] fileJ.path = some c → c.modified_at ≠ fileJ.mtime) →
      ∃ fd : FileData,
        process_file [cachedA] 99 no_extract fileJ
          = (some (Sum.inr fd), insert_or_update_file [cachedA] 99 fd) ∧
        fd.path = fileJ.path ∧ fd.modified_at = fileJ.mtime ∧
        fd.size_bytes = fileJ.size_bytes ∧
        fd.hash = (no_extract fileJ).map ExtractInfo.hash ∧
        (no_extract fileJ = none → fd.hash = none))) :=
  ⟨by decide, C3_cache_freshness_rule [cachedA] 99 no_extract fileJ (by decide)⟩

theorem C9_witness :
    ((get_file_type fileJ).isSome ∧
      get_file_by_path [cachedA] fileJ.path = some cachedA ∧
      cachedA.modified_at = fileJ.mtime) ∧
    (process_file [cachedA] 99 no_extract fileJ).2 = [cachedA] :=
  ⟨⟨by decide, by decide, by decide⟩,
   C9_cache_hit_no_write [cachedA] 99 no_extract fileJ cachedA
     (by decide) (by decide) (by decide)⟩

theorem C4_witness :
    ScanStatus.reset.is_scanning = false ∧
    ((scan_directory ScanStatus.reset worldFail "/pics" "both" true).2.is_scanning
        = false ∧
     (scan_directory ScanStatus.reset worldFail "/pics" "both" true).2.end_time
        = some worldFail.end_now ∧
     (∀ msg, (scan_directory ScanStatus.reset worldFail "/pics" "both" true).1
          = ScanOutcome.failed msg →
        msg ∈ (scan_directory ScanStatus.reset worldFail "/pics" "both" true).2.errors)) :=
  ⟨rfl, C4_scan_terminal_state ScanStatus.reset worldFail "/pics" "both" true rfl⟩

theorem C5_witness :
    runningScan.is_scanning = true ∧
    scan_directory runningScan worldFail "/pics" "both" true
      = (ScanOutcome.conflict, runningScan) :=
  ⟨rfl, C5_scan_conflict_unchanged runningScan worldFail "/pics" "both" true rfl⟩
